import Mathlib

/-!
Verification of the webhook service (`WebhookService` in the repository's
web UI source) against its natural-language specification.

The service is a thin wrapper around the browser `fetch` API:
`getWebhookSettings` fetches configuration, `formatWebhookPayload` shapes a
shot record into a JSON payload, `sendWebhook` resolves configuration,
builds the payload, issues an HTTP POST and classifies the outcome, and
`validateWebhookUrl` checks a URL's shape.

The embedding models JavaScript values with an explicit `JsVal` type (so
that JavaScript truthiness, property access on records and the `||`
operator are represented faithfully), thrown `Error` objects as a
name/message pair, and the two external I/O collaborators (the settings
endpoint and the webhook POST transport) as explicit parameters describing
their outcome: the functions themselves are pure state transformers over
those parameters, exactly mirroring the control flow of the source.

Configuration values (`webhookUrl`, `authToken` overrides and the settings
fields) are modelled as `String`, with `""` standing for every JavaScript
falsy value (`null`, `undefined`, `''`): the source only ever tests these
values for truthiness, falls back with `||`, and trims them, and for
string-or-null inputs those operations depend only on whether the value is
a nonempty string, so the collapse is faithful on the service's domain
(the spec's data model likewise defaults absent configuration fields to
the empty string).
-/

namespace Webhook

/-- A JavaScript value, as far as the webhook service observes one:
`null`, `undefined`, booleans, (integer) numbers, strings, arrays and
plain objects (ordered field lists). -/
inductive JsVal where
  | null
  | undefined
  | bool (b : Bool)
  | num (n : Int)
  | str (s : String)
  | arr (elems : List JsVal)
  | obj (fields : List (String × JsVal))

/-- JavaScript truthiness: `null`, `undefined`, `false`, `0` and `""` are
falsy; every object and array is truthy. -/
def truthy : JsVal → Bool
  | .null => false
  | .undefined => false
  | .bool b => b
  | .num n => n != 0
  | .str s => s != ""
  | .arr _ => true
  | .obj _ => true

/-- Property access `v[key]`: on an object, the field's value or
`undefined` when absent; on any other (truthy) value the service never
reads an own property, so the result is `undefined`. -/
def jsGet (v : JsVal) (key : String) : JsVal :=
  match v with
  | .obj fields => (fields.lookup key).getD .undefined
  | _ => .undefined

/-- JavaScript `a || b`: `a` when truthy, otherwise `b`. -/
def jsOr (a b : JsVal) : JsVal :=
  if truthy a then a else b

/-- JavaScript `a || b` restricted to the string-or-falsy configuration
values (falsy collapsed to `""`): a nonempty string is truthy. -/
def jsOrStr (a b : String) : String :=
  if a ≠ "" then a else b

/-- JavaScript `s.trim()`: the string with leading and trailing
whitespace removed. -/
def jsTrim (s : String) : String :=
  ⟨((s.data.dropWhile Char.isWhitespace).reverse.dropWhile Char.isWhitespace).reverse⟩

/-- A thrown JavaScript `Error`: its `name` (`"Error"` for `new Error(...)`,
`"TypeError"` for a failed `fetch`) and its `message`. -/
structure JsError where
  name : String
  message : String
deriving DecidableEq

/-- `new Error('Invalid shot data: shot is required')`. -/
def invalidInputError : JsError :=
  ⟨"Error", "Invalid shot data: shot is required"⟩

/-- `new Error('Webhook URL is not configured')`. -/
def configurationError : JsError :=
  ⟨"Error", "Webhook URL is not configured"⟩

/-- `new Error('Authentication failed - please check your auth token')`. -/
def authenticationError : JsError :=
  ⟨"Error", "Authentication failed - please check your auth token"⟩

/-- `new Error('Data validation failed - the webhook server rejected the data format')`. -/
def validationError : JsError :=
  ⟨"Error", "Data validation failed - the webhook server rejected the data format"⟩

/-- The generic non-2xx error ``new Error(`HTTP ${response.status}: ${errorText}`)``. -/
def httpStatusError (status : Nat) (errorText : String) : JsError :=
  ⟨"Error", "HTTP " ++ toString status ++ ": " ++ errorText⟩

/-- `new Error('Network error: Unable to connect to webhook URL')`. -/
def networkError : JsError :=
  ⟨"Error", "Network error: Unable to connect to webhook URL"⟩

/-- `WebhookService.formatWebhookPayload(shot, notes = null)`.

```js
if (!shot) { throw new Error('Invalid shot data: shot is required'); }
const payload = {
  id: shot.id, timestamp: shot.timestamp, profile: shot.profile,
  profileId: shot.profileId, duration: shot.duration, volume: shot.volume,
  incomplete: shot.incomplete || false,
  samples: shot.samples || [],
  notes: notes || shot.notes || null,
};
return payload;
```

The JavaScript default argument `notes = null` is made explicit. A thrown
error is an `Except.error`. -/
def formatWebhookPayload (shot : JsVal) (notes : JsVal) : Except JsError JsVal :=
  if ! truthy shot then
    .error invalidInputError
  else
    .ok (.obj [
      ("id", jsGet shot "id"),
      ("timestamp", jsGet shot "timestamp"),
      ("profile", jsGet shot "profile"),
      ("profileId", jsGet shot "profileId"),
      ("duration", jsGet shot "duration"),
      ("volume", jsGet shot "volume"),
      ("incomplete", jsOr (jsGet shot "incomplete") (.bool false)),
      ("samples", jsOr (jsGet shot "samples") (.arr [])),
      ("notes", jsOr (jsOr notes (jsGet shot "notes")) .null)])

/-- The `notes` field of the payload `formatWebhookPayload` builds, when it
builds one. -/
def payloadNotesOf (shot : JsVal) (notes : JsVal) : Option JsVal :=
  (formatWebhookPayload shot notes).toOption.map (fun p => jsGet p "notes")

/-- The settings JSON returned by the `/api/settings` endpoint: optional
string fields `webhookUrl` and `webhookAuthToken` (the schema of §6 of the
spec; `none` models an absent field). -/
structure SettingsJson where
  webhookUrl : Option String
  webhookAuthToken : Option String

/-- The resolved webhook configuration: URL and auth token. -/
structure WebhookConfig where
  url : String
  authToken : String
deriving DecidableEq

/-- `WebhookService.getWebhookSettings()`.

```js
try {
  const response = await fetch('/api/settings');
  const settings = await response.json();
  return { url: settings.webhookUrl || '', authToken: settings.webhookAuthToken || '' };
} catch (error) { return { url: '', authToken: '' }; }
```

`settingsFetch` is the outcome of `fetch('/api/settings')` followed by
`response.json()`: `some s` when both succeed with the parsed settings
object `s`, `none` when either rejects (the `catch` branch). An absent
field is `undefined`, so `settings.webhookUrl || ''` is `Option.getD ""`. -/
def getWebhookSettings (settingsFetch : Option SettingsJson) : WebhookConfig :=
  match settingsFetch with
  | some settings => ⟨settings.webhookUrl.getD "", settings.webhookAuthToken.getD ""⟩
  | none => ⟨"", ""⟩

/-- Lines 64–71 of `sendWebhook`: resolve the URL and token from the
caller's overrides and, when either is missing, the fetched settings.

```js
let url = webhookUrl;
let token = authToken;
if (!url || !token) {
  const settings = await this.getWebhookSettings();
  url = url || settings.url;
  token = token || settings.authToken;
}
```

The `null` defaults of the `webhookUrl`/`authToken` parameters are
collapsed to `""` (see the module comment). -/
def resolveConfig (webhookUrl authToken : String)
    (settingsFetch : Option SettingsJson) : WebhookConfig :=
  if webhookUrl = "" ∨ authToken = "" then
    let settings := getWebhookSettings settingsFetch
    ⟨jsOrStr webhookUrl settings.url, jsOrStr authToken settings.authToken⟩
  else
    ⟨webhookUrl, authToken⟩

/-- `s.includes(pat)`: substring containment (some suffix of `s` starts
with `pat`). -/
def containsSub (s pat : String) : Bool :=
  (List.range (s.data.length + 1)).any fun i => pat.data.isPrefixOf (s.data.drop i)

/-- The outcome of `fetch(url, {method: 'POST', ...})` as the service
observes it: either a completed HTTP response — status, `content-type`
header (`""` when absent, since the service only tests it for truthiness
and substring containment), the body as text (what `response.text()`
yields) and the body as parsed JSON (what `response.json()` yields) — or a
rejection with a JavaScript error of the given name and message (the
browser rejects with a `TypeError` on a transport-level failure, i.e. when
the request never completed). -/
inductive FetchOutcome where
  | response (status : Nat) (contentType : String) (bodyText : String) (jsonBody : JsVal)
  | rejected (name : String) (message : String)

/-- The HTTP POST request `sendWebhook` hands to `fetch`: the URL, the
headers in insertion order, and the payload (serialized with
`JSON.stringify` on the wire). -/
structure HttpRequest where
  url : String
  headers : List (String × String)
  body : JsVal

/-- `WebhookService.sendWebhook(shot, notes = null, webhookUrl = null, authToken = null)`.

The two awaited I/O actions are the explicit parameters `settingsFetch`
(consumed by `resolveConfig`, see `getWebhookSettings`) and `outcome` (the
result of the POST). The result is the request handed to `fetch` (`none`
when the call throws before reaching `fetch`) paired with the settled
value: `.ok` for a returned result, `.error` for a thrown error.

```js
// ... resolve url/token (resolveConfig) ...
if (!url || url.trim() === '') { throw new Error('Webhook URL is not configured'); }
const payload = this.formatWebhookPayload(shot, notes);
const headers = { 'Content-Type': 'application/json', Accept: 'application/json',
                  'User-Agent': 'GaggiMate-WebUI/1.0' };
if (token && token.trim() !== '') { headers['Authorization'] = `Bearer ${token}`; }
try {
  const response = await fetch(url, { method: 'POST', headers, body: JSON.stringify(payload) });
  if (!response.ok) {
    const errorText = await response.text();
    if (response.status === 401 || response.status === 403) { throw ... }
    if (response.status === 422) { throw ... }
    throw new Error(`HTTP ${response.status}: ${errorText}`);
  }
  const contentType = response.headers.get('content-type');
  if (contentType && contentType.includes('application/json')) { return await response.json(); }
  return { success: true, status: response.status };
} catch (fetchError) {
  if (fetchError.name === 'TypeError') { throw new Error('Network error: ...'); }
  throw fetchError;
}
```

`response.ok` is `200 ≤ status ≤ 299`. The errors thrown inside the `try`
block by the status classification are themselves routed through the
`catch`, whose name test (`'Error' ≠ 'TypeError'`) rethrows them
unchanged; the model keeps that routing. -/
def sendWebhook (shot : JsVal) (notes : JsVal) (webhookUrl authToken : String)
    (settingsFetch : Option SettingsJson) (outcome : FetchOutcome) :
    Option HttpRequest × Except JsError JsVal :=
  let config := resolveConfig webhookUrl authToken settingsFetch
  let url := config.url
  let token := config.authToken
  if jsTrim url = "" then
    (none, .error configurationError)
  else
    match formatWebhookPayload shot notes with
    | .error e => (none, .error e)
    | .ok payload =>
      let headers :=
        [("Content-Type", "application/json"),
         ("Accept", "application/json"),
         ("User-Agent", "GaggiMate-WebUI/1.0")]
        ++ (if jsTrim token ≠ "" then [("Authorization", "Bearer " ++ token)] else [])
      let request : HttpRequest := ⟨url, headers, payload⟩
      let tryBlock : Except JsError JsVal :=
        match outcome with
        | .rejected name message => .error ⟨name, message⟩
        | .response status contentType bodyText jsonBody =>
          if ¬ (200 ≤ status ∧ status ≤ 299) then
            let errorText := bodyText
            if status = 401 ∨ status = 403 then .error authenticationError
            else if status = 422 then .error validationError
            else .error (httpStatusError status errorText)
          else if contentType ≠ "" ∧ containsSub contentType "application/json" then
            .ok jsonBody
          else
            .ok (.obj [("success", .bool true), ("status", .num status)])
      let settled : Except JsError JsVal :=
        match tryBlock with
        | .error fetchError =>
          if fetchError.name = "TypeError" then .error networkError
          else .error fetchError
        | .ok v => .ok v
      (some request, settled)

/-- A character allowed in a URI scheme after the first: letters, digits,
`+`, `-`, `.`. -/
def isSchemeChar (c : Char) : Bool :=
  c.isAlphanum || c == '+' || c == '-' || c == '.'

/-- Modelled from the spec: the platform URI parser (`new URL(url)`) used
by `validateWebhookUrl` is a browser builtin, not part of the repository
source; the spec only speaks of input "that fails URI parsing" and of "the
parsed scheme". This model returns the parsed `protocol` (the lower-cased
scheme followed by `:`): `some` when the trimmed input starts with a
letter followed by scheme characters and a `:`, `none` (the constructor
throws) otherwise — in particular `none` for the empty string, for
whitespace, and for any string without a scheme delimiter. -/
def parseURLModel (url : String) : Option String :=
  let chars := (jsTrim url).data
  let scheme := chars.takeWhile (fun c => c ≠ ':')
  if scheme.length = chars.length then none
  else
    match scheme with
    | [] => none
    | c :: cs =>
      if c.isAlpha && cs.all isSchemeChar then
        some ⟨(scheme.map Char.toLower) ++ [':']⟩
      else none

/-- `WebhookService.validateWebhookUrl(url)`, parameterized by the
platform URI parser (see `parseURLModel`).

```js
if (!url || url.trim() === '') { return false; }
try {
  const parsed = new URL(url);
  return parsed.protocol === 'http:' || parsed.protocol === 'https:';
} catch (e) { return false; }
```
-/
def validateWebhookUrl (parseURL : String → Option String) (url : String) : Bool :=
  if jsTrim url = "" then false
  else
    match parseURL url with
    | some protocol => protocol == "http:" || protocol == "https:"
    | none => false

/-! ### Claim C1 -/

/-- Claim C1 counterexample. The claim states that for a non-null shot and
a provided non-null notes override `n` the payload's notes field equals
`n`, and that with a null override the notes field equals `shot.notes`.
Both parts fail on the code's `notes || shot.notes || null`, which tests
truthiness, not nullness: (a) the non-null override `""` is falsy, so for
a shot whose own notes are `"old note"` the payload's notes field is
`"old note"`, not `""`; (b) with a null override and a shot whose own
notes are the non-null `""`, the notes field is `null`, not `""`. -/
theorem formatWebhookPayload_falsy_notes_cex :
    (JsVal.str "" ≠ JsVal.null
      ∧ payloadNotesOf (.obj [("notes", .str "old note")]) (.str "") = some (.str "old note")
      ∧ JsVal.str "old note" ≠ JsVal.str "")
    ∧ (payloadNotesOf (.obj [("notes", .str "")]) .null = some .null
      ∧ JsVal.null ≠ JsVal.str "") := by
  refine ⟨⟨?_, rfl, ?_⟩, rfl, ?_⟩ <;> simp

/-- Claim C1 (amended): for every shot record and notes override `n`, the
payload's notes field equals `n` when `n` is truthy; when `n` is falsy
(absent, null, or another falsy value such as `""`) it equals the shot's
own notes when those are truthy, and `null` otherwise. -/
theorem formatWebhookPayload_notes_preference
    (fields : List (String × JsVal)) (n : JsVal) :
    (truthy n = true → payloadNotesOf (.obj fields) n = some n)
    ∧ (truthy n = false →
        (truthy (jsGet (.obj fields) "notes") = true →
          payloadNotesOf (.obj fields) n = some (jsGet (.obj fields) "notes"))
        ∧ (truthy (jsGet (.obj fields) "notes") = false →
          payloadNotesOf (.obj fields) n = some .null)) := by
  have base : payloadNotesOf (.obj fields) n
      = some (jsOr (jsOr n (jsGet (.obj fields) "notes")) .null) := rfl
  constructor
  · intro h
    rw [base]; simp [jsOr, h]
  · intro h
    constructor
    · intro h2
      rw [base]; simp [jsOr, h, h2]
    · intro h2
      rw [base]; simp [jsOr, h, h2]

/-- Witness for `formatWebhookPayload_notes_preference`. -/
theorem formatWebhookPayload_notes_preference_witness :
    payloadNotesOf (.obj [("notes", .str "old")]) (.str "override") = some (.str "override") :=
  (formatWebhookPayload_notes_preference [("notes", .str "old")] (.str "override")).1 (by decide)

/-! ### Claim C2 -/

/-- Claim C2: `formatWebhookPayload` fails, with the invalid-shot error,
exactly when the shot is absent (`undefined`) or `null`; for every present
shot record it returns a payload, whichever optional fields the record is
missing (the field list is unconstrained). -/
theorem formatWebhookPayload_invalid_shot :
    (∀ n, formatWebhookPayload .null n = .error invalidInputError)
    ∧ (∀ n, formatWebhookPayload .undefined n = .error invalidInputError)
    ∧ (∀ fields n, ∃ p, formatWebhookPayload (.obj fields) n = .ok p) :=
  ⟨fun _ => rfl, fun _ => rfl, fun _ _ => ⟨_, rfl⟩⟩

/-! ### Claim C3 -/

/-- Claim C3: whenever the resolved URL is empty after trimming, `sendWebhook`
fails with the configuration error — for every shot (including `null`),
notes, token, settings outcome and transport outcome, no request is issued;
and the configuration error is distinct from the invalid-input error, so an
unconfigured URL wins over a null shot. -/
theorem sendWebhook_unconfigured_url (shot notes : JsVal) (webhookUrl authToken : String)
    (settingsFetch : Option SettingsJson) (outcome : FetchOutcome)
    (h : jsTrim (resolveConfig webhookUrl authToken settingsFetch).url = "") :
    sendWebhook shot notes webhookUrl authToken settingsFetch outcome
      = (none, .error configurationError)
    ∧ configurationError ≠ invalidInputError := by
  refine ⟨?_, by decide⟩
  simp [sendWebhook, h]

/-- Witness for `sendWebhook_unconfigured_url`: a null shot with no
configured URL yields the configuration error, not the invalid-input
error. -/
theorem sendWebhook_unconfigured_url_witness :
    sendWebhook .null .null "" "" none (.response 200 "" "" .null)
      = (none, .error configurationError)
    ∧ configurationError ≠ invalidInputError :=
  sendWebhook_unconfigured_url .null .null "" "" none (.response 200 "" "" .null) (by decide)

/-! ### Claim C5 -/

/-- Claim C5: configuration resolution uses the caller's URL and token
as-is when both are supplied (a supplied value being a nonempty string,
the spec's representation of an absent field being `""`); otherwise each
missing field is filled from the fetched settings while a supplied field
always wins over the fetched value; and a failure to reach the settings
source yields the empty configuration instead of an error. -/
theorem resolveConfig_spec :
    (∀ (u t : String) (sf : Option SettingsJson),
        u ≠ "" → t ≠ "" → resolveConfig u t sf = ⟨u, t⟩)
    ∧ (∀ u t sf, u ≠ "" → (resolveConfig u t sf).url = u)
    ∧ (∀ u t sf, t ≠ "" → (resolveConfig u t sf).authToken = t)
    ∧ (∀ u t sf, u = "" → (resolveConfig u t sf).url = (getWebhookSettings sf).url)
    ∧ (∀ u t sf, t = "" → (resolveConfig u t sf).authToken = (getWebhookSettings sf).authToken)
    ∧ getWebhookSettings none = ⟨"", ""⟩ := by
  refine ⟨fun u t sf hu ht => ?_, fun u t sf hu => ?_, fun u t sf ht => ?_,
    fun u t sf hu => ?_, fun u t sf ht => ?_, rfl⟩ <;>
    by_cases hc : u = "" ∨ t = "" <;>
    simp_all [resolveConfig, jsOrStr]

/-- Witness for `resolveConfig_spec`: supplied URL and token are used
as-is, whatever the settings source would have returned. -/
theorem resolveConfig_spec_witness :
    resolveConfig "https://example.com/hook" "tok"
        (some ⟨some "https://other.example", some "other"⟩)
      = ⟨"https://example.com/hook", "tok"⟩ :=
  resolveConfig_spec.1 "https://example.com/hook" "tok"
    (some ⟨some "https://other.example", some "other"⟩) (by decide) (by decide)

/-! ### Claim C4 -/

/-- Claim C4: for a present shot record and a configured URL, a completed
HTTP response is classified solely by status and content type: 401 or 403
fails with the authentication error; 422 fails with the validation error;
any other non-2xx status fails with the HTTP error carrying the status and
the response body text; a 2xx response whose content type contains
`application/json` resolves to the parsed JSON body; any other 2xx
response resolves to `{ success: true, status }`. -/
theorem sendWebhook_response_classification (fields : List (String × JsVal)) (notes : JsVal)
    (u t : String) (sf : Option SettingsJson) (status : Nat)
    (contentType bodyText : String) (jsonBody : JsVal)
    (h : jsTrim (resolveConfig u t sf).url ≠ "") :
    (sendWebhook (.obj fields) notes u t sf
        (.response status contentType bodyText jsonBody)).2 =
      if status = 401 ∨ status = 403 then .error authenticationError
      else if status = 422 then .error validationError
      else if ¬ (200 ≤ status ∧ status ≤ 299) then .error (httpStatusError status bodyText)
      else if contentType ≠ "" ∧ containsSub contentType "application/json" then .ok jsonBody
      else .ok (.obj [("success", .bool true), ("status", .num status)]) := by
  have hname : ("Error" : String) ≠ "TypeError" := by decide
  by_cases h1 : status = 401 ∨ status = 403
  · have hn : ¬ (200 ≤ status ∧ status ≤ 299) := by rcases h1 with h1 | h1 <;> omega
    simp [sendWebhook, formatWebhookPayload, truthy, h, h1, hn,
      authenticationError, hname]
  · by_cases h2 : status = 422
    · have hn : ¬ (200 ≤ status ∧ status ≤ 299) := by omega
      simp [sendWebhook, formatWebhookPayload, truthy, h, h1, h2, hn,
        validationError, hname]
    · by_cases h3 : 200 ≤ status ∧ status ≤ 299
      · by_cases h4 : contentType ≠ "" ∧ containsSub contentType "application/json"
        · simp [sendWebhook, formatWebhookPayload, truthy, h, h1, h2, h3, h4]
        · simp [sendWebhook, formatWebhookPayload, truthy, h, h1, h2, h3, h4]
      · simp [sendWebhook, formatWebhookPayload, truthy, h, h1, h2, h3,
          httpStatusError, hname]

/-- Witness for `sendWebhook_response_classification`: a 500 response with
body `"boom"` fails with the HTTP error carrying status 500 and `"boom"`. -/
theorem sendWebhook_response_classification_witness :
    (sendWebhook (.obj []) .null "https://example.com/hook" "" none
        (.response 500 "" "boom" .null)).2 = .error (httpStatusError 500 "boom") := by
  have := sendWebhook_response_classification [] .null "https://example.com/hook" "" none
    500 "" "boom" .null (by decide)
  simpa using this

/-- Helper: for a present shot record and a resolved URL that is nonempty
after trimming, `sendWebhook` hands the transport exactly one request — at
the resolved URL, with the three fixed headers followed by the conditional
`Authorization` header, carrying the built payload. -/
theorem sendWebhook_request_eq (fields : List (String × JsVal)) (notes : JsVal)
    (u t : String) (sf : Option SettingsJson) (oc : FetchOutcome) (p : JsVal)
    (h : jsTrim (resolveConfig u t sf).url ≠ "")
    (hp : formatWebhookPayload (.obj fields) notes = .ok p) :
    (sendWebhook (.obj fields) notes u t sf oc).1 =
      some ⟨(resolveConfig u t sf).url,
        [("Content-Type", "application/json"), ("Accept", "application/json"),
         ("User-Agent", "GaggiMate-WebUI/1.0")]
        ++ (if jsTrim (resolveConfig u t sf).authToken ≠ ""
            then [("Authorization", "Bearer " ++ (resolveConfig u t sf).authToken)]
            else []),
        p⟩ := by
  simp [sendWebhook, h, hp]

/-! ### Claim C6 -/

/-- Claim C6: `sendWebhook` applies no URL-shape validation of its own.
For every present shot record and every resolved URL that is nonempty
after trimming, the request is handed to the transport at exactly that
URL, whatever its shape and whatever the transport then does; in
particular the malformed URL `"not a url"`, which `validateWebhookUrl`
rejects, is still sent to the transport. -/
theorem sendWebhook_skips_url_validation :
    (∀ (fields : List (String × JsVal)) (notes : JsVal) (u t : String)
        (sf : Option SettingsJson) (oc : FetchOutcome),
        jsTrim (resolveConfig u t sf).url ≠ "" →
        ∃ req, (sendWebhook (.obj fields) notes u t sf oc).1 = some req
          ∧ req.url = (resolveConfig u t sf).url)
    ∧ (validateWebhookUrl parseURLModel "not a url" = false
      ∧ ∃ req, (sendWebhook (.obj []) .null "not a url" "" none
            (.rejected "TypeError" "failed to fetch")).1 = some req
          ∧ req.url = "not a url") := by
  constructor
  · intro fields notes u t sf oc h
    obtain ⟨p, hp⟩ : ∃ p, formatWebhookPayload (.obj fields) notes = .ok p := ⟨_, rfl⟩
    exact ⟨_, sendWebhook_request_eq fields notes u t sf oc p h hp, rfl⟩
  · exact ⟨by decide, _, rfl, rfl⟩

/-- Witness for `sendWebhook_skips_url_validation`: its universal part at
the malformed URL `"::::"`. -/
theorem sendWebhook_skips_url_validation_witness :
    ∃ req, (sendWebhook (.obj []) .null "::::" "" none
        (.response 200 "" "" .null)).1 = some req ∧ req.url = "::::" :=
  sendWebhook_skips_url_validation.1 [] .null "::::" "" none
    (.response 200 "" "" .null) (by decide)

/-! ### Claim C7 -/

/-- Claim C7: `validateWebhookUrl` returns false for every input that is
empty or whitespace-only after trimming and for every input the URI
parser rejects, and returns true exactly when the input parses with
scheme `http` or `https` — stated for an arbitrary URI parser, and
evaluated on the modelled platform parser at the spec's four inputs:
`""`, `"   "` and `"ftp://x"` are rejected, `"https://example.com/hook"`
is accepted. -/
theorem validateWebhookUrl_spec :
    (∀ (parseURL : String → Option String) (url : String),
        validateWebhookUrl parseURL url = true ↔
          jsTrim url ≠ "" ∧ ∃ protocol, parseURL url = some protocol
            ∧ (protocol = "http:" ∨ protocol = "https:"))
    ∧ validateWebhookUrl parseURLModel "" = false
    ∧ validateWebhookUrl parseURLModel "   " = false
    ∧ validateWebhookUrl parseURLModel "ftp://x" = false
    ∧ validateWebhookUrl parseURLModel "https://example.com/hook" = true := by
  refine ⟨fun parseURL url => ?_, by decide, by decide, by decide, by decide⟩
  by_cases he : jsTrim url = ""
  · simp [validateWebhookUrl, he]
  · cases hp : parseURL url with
    | none => simp [validateWebhookUrl, he, hp]
    | some protocol => simp [validateWebhookUrl, he, hp]

/-! ### Claim C8 -/

/-- Claim C8: every request `sendWebhook` hands to the transport carries
the headers `Content-Type: application/json`, `Accept: application/json`
and the fixed client identifier `User-Agent: GaggiMate-WebUI/1.0`, and
carries an `Authorization` header if and only if the resolved auth token
is nonempty after trimming; in particular the token `"   "` produces no
`Authorization` header. -/
theorem sendWebhook_request_headers :
    (∀ (fields : List (String × JsVal)) (notes : JsVal) (u t : String)
        (sf : Option SettingsJson) (oc : FetchOutcome),
        jsTrim (resolveConfig u t sf).url ≠ "" →
        ∃ req, (sendWebhook (.obj fields) notes u t sf oc).1 = some req
          ∧ ("Content-Type", "application/json") ∈ req.headers
          ∧ ("Accept", "application/json") ∈ req.headers
          ∧ ("User-Agent", "GaggiMate-WebUI/1.0") ∈ req.headers
          ∧ ((∃ v, ("Authorization", v) ∈ req.headers) ↔
              jsTrim (resolveConfig u t sf).authToken ≠ ""))
    ∧ (∃ req, (sendWebhook (.obj []) .null "https://example.com/hook" "   " none
          (.response 200 "" "" .null)).1 = some req
        ∧ ∀ v, ("Authorization", v) ∉ req.headers) := by
  constructor
  · intro fields notes u t sf oc h
    obtain ⟨p, hp⟩ : ∃ p, formatWebhookPayload (.obj fields) notes = .ok p := ⟨_, rfl⟩
    refine ⟨_, sendWebhook_request_eq fields notes u t sf oc p h hp, ?_, ?_, ?_, ?_⟩ <;>
      by_cases ht : jsTrim (resolveConfig u t sf).authToken = "" <;>
      simp [ht]
  · refine ⟨_, rfl, ?_⟩
    intro v
    simp
    intro hc
    exact absurd (by decide) hc

/-- Witness for `sendWebhook_request_headers`: its universal part with a
supplied token. -/
theorem sendWebhook_request_headers_witness :
    ∃ req, (sendWebhook (.obj []) .null "https://example.com/hook" "tok" none
        (.response 200 "" "" .null)).1 = some req
      ∧ ("Content-Type", "application/json") ∈ req.headers
      ∧ ("Accept", "application/json") ∈ req.headers
      ∧ ("User-Agent", "GaggiMate-WebUI/1.0") ∈ req.headers
      ∧ ((∃ v, ("Authorization", v) ∈ req.headers) ↔
          jsTrim (resolveConfig "https://example.com/hook" "tok" none).authToken ≠ "") :=
  sendWebhook_request_headers.1 [] .null "https://example.com/hook" "tok" none
    (.response 200 "" "" .null) (by decide)

/-! ### Claim C9 -/

/-- Helper: the generic HTTP error never coincides with the network
error — its message starts with `'H'`, the network error's with `'N'`. -/
theorem httpStatusError_ne_networkError (status : Nat) (errorText : String) :
    httpStatusError status errorText ≠ networkError := by
  intro hcontra
  have hd : (httpStatusError status errorText).message.data.head?
      = networkError.message.data.head? :=
    congrArg (fun e => e.message.data.head?) hcontra
  have hH : (httpStatusError status errorText).message.data.head? = some 'H' := rfl
  have hN : networkError.message.data.head? = some 'N' := rfl
  rw [hH, hN] at hd
  exact absurd hd (by decide)

/-- Helper: the only error `formatWebhookPayload` fails with is the
invalid-input error. -/
theorem formatWebhookPayload_error_eq (shot notes : JsVal) (e : JsError)
    (he : formatWebhookPayload shot notes = .error e) : e = invalidInputError := by
  by_cases h : truthy shot <;> simp [formatWebhookPayload, h] at he
  exact he.symm

/-- Claim C9: a transport-level failure — the POST rejecting with the
browser's `TypeError`, i.e. the request never completed with a response —
makes `sendWebhook` fail with the network error; and no completed
request/response cycle is ever classified as the network error, whatever
its status, content type or body (nor is any pre-transport failure). -/
theorem sendWebhook_network_error_classification :
    (∀ (fields : List (String × JsVal)) (notes : JsVal) (u t : String)
        (sf : Option SettingsJson) (msg : String),
        jsTrim (resolveConfig u t sf).url ≠ "" →
        (sendWebhook (.obj fields) notes u t sf (.rejected "TypeError" msg)).2
          = .error networkError)
    ∧ (∀ (shot notes : JsVal) (u t : String) (sf : Option SettingsJson)
        (status : Nat) (contentType bodyText : String) (jsonBody : JsVal),
        (sendWebhook shot notes u t sf
            (.response status contentType bodyText jsonBody)).2 ≠ .error networkError) := by
  constructor
  · intro fields notes u t sf msg h
    simp [sendWebhook, formatWebhookPayload, truthy, h]
  · intro shot notes u t sf status contentType bodyText jsonBody
    by_cases hurl : jsTrim (resolveConfig u t sf).url = ""
    · simp [sendWebhook, hurl, configurationError, networkError]
    · cases hfmt : formatWebhookPayload shot notes with
      | error e =>
        have he := formatWebhookPayload_error_eq shot notes e hfmt
        subst he
        simp [sendWebhook, hurl, hfmt, invalidInputError, networkError]
      | ok p =>
        by_cases hok : 200 ≤ status ∧ status ≤ 299
        · by_cases hct : contentType ≠ "" ∧ containsSub contentType "application/json" <;>
            simp [sendWebhook, hurl, hfmt, hok, hct]
        · by_cases h1 : status = 401 ∨ status = 403
          · simp [sendWebhook, hurl, hfmt, hok, h1, authenticationError, networkError]
          · by_cases h2 : status = 422
            · simp [sendWebhook, hurl, hfmt, hok, h1, h2, validationError, networkError]
            · have hne := httpStatusError_ne_networkError status bodyText
              simp [sendWebhook, hurl, hfmt, hok, h1, h2, httpStatusError, networkError] at hne ⊢
              exact hne

/-- Witness for `sendWebhook_network_error_classification`: a transport
rejection at a configured URL fails with the network error. -/
theorem sendWebhook_network_error_classification_witness :
    (sendWebhook (.obj []) .null "https://example.com/hook" "" none
        (.rejected "TypeError" "failed to fetch")).2 = .error networkError :=
  sendWebhook_network_error_classification.1 [] .null "https://example.com/hook" "" none
    "failed to fetch" (by decide)

/-! ### Claim C10 -/

/-- Claim C10: when the resolved auth token is nonempty after trimming,
the `Authorization` header's value is `"Bearer "` followed by the token
verbatim, untrimmed; in particular the token `" t "` is sent as
`"Bearer  t "`, surrounding whitespace included. -/
theorem sendWebhook_auth_header_verbatim :
    (∀ (fields : List (String × JsVal)) (notes : JsVal) (u t : String)
        (sf : Option SettingsJson) (oc : FetchOutcome),
        jsTrim (resolveConfig u t sf).url ≠ "" →
        jsTrim (resolveConfig u t sf).authToken ≠ "" →
        ∃ req, (sendWebhook (.obj fields) notes u t sf oc).1 = some req
          ∧ ("Authorization", "Bearer " ++ (resolveConfig u t sf).authToken) ∈ req.headers)
    ∧ (∃ req, (sendWebhook (.obj []) .null "https://example.com/hook" " t " none
          (.response 200 "" "" .null)).1 = some req
        ∧ ("Authorization", "Bearer  t ") ∈ req.headers)
    ∧ (" t " : String) ≠ "t" := by
  refine ⟨?_, ⟨_, rfl, by decide⟩, by decide⟩
  intro fields notes u t sf oc hu ht
  obtain ⟨p, hp⟩ : ∃ p, formatWebhookPayload (.obj fields) notes = .ok p := ⟨_, rfl⟩
  refine ⟨_, sendWebhook_request_eq fields notes u t sf oc p hu hp, ?_⟩
  simp [ht]

/-- Witness for `sendWebhook_auth_header_verbatim`: its universal part at
a concrete token. -/
theorem sendWebhook_auth_header_verbatim_witness :
    ∃ req, (sendWebhook (.obj []) .null "https://example.com/hook" "tok2" none
        (.response 200 "" "" .null)).1 = some req
      ∧ ("Authorization",
          "Bearer " ++ (resolveConfig "https://example.com/hook" "tok2" none).authToken)
        ∈ req.headers :=
  sendWebhook_auth_header_verbatim.1 [] .null "https://example.com/hook" "tok2" none
    (.response 200 "" "" .null) (by decide) (by decide)

end Webhook
